import Mathlib

/-!
Shallow embedding of the Level Devil platformer engine, translated from
src/components/GameCanvas.tsx, src/constants.ts and the taunt module
(src/unnamed/part_000). Numeric values are modelled as rationals; the
per-frame `update` function models the body of the main game loop in its
PLAYING state (particle aging, eye blinking and rendering are cosmetic and
outside the simulation state). Side effects (particle bursts, the explosion
sound, the onDie and onWin callbacks) are modelled as an explicit effect
list returned by the frame step.
-/

namespace LD

attribute [local semireducible] Rat.add Rat.mul Rat.sub Rat.ofScientific Rat.inv

/-- Physics constants from src/constants.ts. -/
def GRAVITY : ℚ := 0.6

def JUMP_FORCE : ℚ := -11

def MOVE_SPEED : ℚ := 5

def FRICTION : ℚ := 0.8

def MAX_FALL_SPEED : ℚ := 15

def PLAYER_SIZE : ℚ := 30

def TILE_SIZE : ℚ := 40

/-- Vector2 from src/types (pair of scalars). -/
structure Vector2 where
  x : ℚ
  y : ℚ
deriving DecidableEq, Repr

/-- Rect from src/types: axis-aligned, origin top-left, y grows downward. -/
structure Rect where
  x : ℚ
  y : ℚ
  w : ℚ
  h : ℚ
deriving DecidableEq, Repr

/-- EntityType from src/types. -/
inductive EntityType where
  | WALL
  | SPIKE
  | GOAL
  | TRIGGER
  | DECORATION
  | MOVING_PLATFORM
deriving DecidableEq, Repr, BEq

/-- Entity from src/types. The open `properties` bag is modelled by the
fields after `collidable`, one per property key the mechanics read or write
(absent keys in the source are falsy / zero, which the defaults mirror).
The render-only keys `ghost`, `opacity` and `active` are not part of the
simulation state and are omitted. -/
structure Entity where
  id : String
  type : EntityType
  x : ℚ
  y : ℚ
  w : ℚ
  h : ℚ
  visible : Bool := true
  collidable : Bool := true
  fake : Bool := false
  trap : Bool := false
  fallingProximity : Bool := false
  triggered : Bool := false
  timer : Nat := 0
  vy : ℚ := 0
  shaking : Bool := false
  shakeTimer : Nat := 0
  falling : Bool := false
  displayX : ℚ := 0
deriving DecidableEq, Repr

/-- The rectangle of an entity. -/
def rectOf (e : Entity) : Rect := ⟨e.x, e.y, e.w, e.h⟩

/-- PlayerState from src/types. -/
structure PlayerState where
  pos : Vector2
  vel : Vector2
  isGrounded : Bool
  dead : Bool
  faceRight : Bool
deriving DecidableEq, Repr

/-- LevelData from src/types. -/
structure LevelData where
  id : Int
  name : String
  description : String
  startPos : Vector2
  width : ℚ
  height : ℚ
  entities : List Entity
deriving DecidableEq, Repr

/-- Held-key state sampled once per frame (ArrowRight/KeyD, ArrowLeft/KeyA,
Space/ArrowUp/KeyW collapsed to one flag per action, as the loop reads them). -/
structure Keys where
  right : Bool
  left : Bool
  jump : Bool
deriving DecidableEq, Repr

/-- No key held. -/
def noKeys : Keys := ⟨false, false, false⟩

/-- The mutable simulation state owned by the frame driver: player,
working entity list (a deep copy of the level's entities at load) and
frame counter. -/
structure GameState where
  player : PlayerState
  entities : List Entity
  frameCount : Nat
deriving DecidableEq, Repr

/-- Observable side effects of one frame: particle bursts (spawnParticles),
the explosion sound, the onDie callback with death position and cause, and
the onWin callback. -/
inductive Effect where
  | particles (x y : ℚ)
  | sound
  | die (x y : ℚ) (cause : String)
  | win
deriving DecidableEq, Repr

/-- AABB overlap test, from checkCollision in GameCanvas.tsx (strict
inequalities on both axes). -/
def checkCollision (r1 r2 : Rect) : Bool :=
  decide (r1.x < r2.x + r2.w) && decide (r1.x + r1.w > r2.x) &&
  decide (r1.y < r2.y + r2.h) && decide (r1.y + r1.h > r2.y)

/-- handleDeath from GameCanvas.tsx: guarded by the dead flag, it marks the
player dead, spawns a particle burst at the player's position, plays the
explosion sound and invokes onDie with the position and cause. When the
player is already dead it does nothing at all. -/
def handleDeath (cause : String) (p : PlayerState) : PlayerState × List Effect :=
  if p.dead then (p, [])
  else ({ p with dead := true },
        [Effect.particles p.pos.x p.pos.y, Effect.sound,
         Effect.die p.pos.x p.pos.y cause])

/-- Is an effect the onDie callback? -/
def isDie : Effect → Bool
  | Effect.die _ _ _ => true
  | _ => false

/-- Cause of the first onDie callback in an effect list, if any. -/
def firstDie : List Effect → Option String
  | [] => none
  | Effect.die _ _ c :: _ => some c
  | _ :: rest => firstDie rest

/-- Whether an effect list contains the onWin callback. -/
def hasWin : List Effect → Bool
  | [] => false
  | Effect.win :: _ => true
  | _ :: rest => hasWin rest

/-- Number of onDie callbacks in an effect list. -/
def countDie (l : List Effect) : Nat := (l.filter isDie).length

/-- Running a sequence of death conditions through handleDeath, threading
the player state and accumulating the effects. -/
def deathFold : List String → PlayerState → PlayerState × List Effect
  | [], p => (p, [])
  | c :: rest, p =>
      let r := handleDeath c p
      let r2 := deathFold rest r.1
      (r2.1, r.2 ++ r2.2)

/-! ### Level mechanics (updateLevelMechanics in GameCanvas.tsx) -/

/-- The player's full axis-aligned rectangle. -/
def playerRect (p : PlayerState) : Rect := ⟨p.pos.x, p.pos.y, PLAYER_SIZE, PLAYER_SIZE⟩

/-- The slightly enlarged trigger region above a crumbling trap (its rect
extended 5 pixels upward). -/
def trapTriggerRect (e : Entity) : Rect := ⟨e.x, e.y - 5, e.w, e.h⟩

/-- Qualifying contact for a crumbling trap: the player overlaps the
enlarged trigger region while grounded. -/
def trapContact (p : PlayerState) (e : Entity) : Bool :=
  checkCollision (playerRect p) (trapTriggerRect e) && p.isGrounded

/-- Generic crumbling-trap mechanic, applied to every entity carrying the
trap property: while still visible and collidable, qualifying contact
starts the countdown (once); once triggered the timer advances every frame
and past 20 the entity turns invisible and non-collidable. -/
def genericTrapStep (p : PlayerState) (e : Entity) : Entity :=
  if e.trap then
    let e :=
      if e.visible && e.collidable && trapContact p e && !e.triggered then
        { e with triggered := true, timer := 0 }
      else e
    if e.triggered then
      let t := e.timer + 1
      if t > 20 then { e with timer := t, visible := false, collidable := false }
      else { e with timer := t }
    else e
  else e

/-- Generic proximity-triggered falling hazard: while untriggered, it
triggers when the player's center is horizontally within one player-width
of the entity's center and the player is below it; once triggered it falls
9 pixels per frame. -/
def proximityStep (p : PlayerState) (e : Entity) : Entity :=
  if e.fallingProximity then
    if !e.triggered then
      if |e.x + e.w / 2 - (p.pos.x + PLAYER_SIZE / 2)| < PLAYER_SIZE ∧ p.pos.y > e.y
      then { e with triggered := true } else e
    else { e with y := e.y + 9 }
  else e

/-- In-place mutation of the first entity matching a predicate, as the
source's entities.find followed by field assignments. -/
def updateFirst (pred : Entity → Bool) (f : Entity → Entity) :
    List Entity → List Entity
  | [] => []
  | e :: rest => if pred e then f e :: rest else e :: updateFirst pred f rest

/-- JavaScript String.prototype.includes. -/
def strIncludes (s sub : String) : Bool := (s.splitOn sub).length ≠ 1

/-- Level 1 (Trust Issues): reveal the hidden troll block once the player
is past x = 7 tiles and above y = 8 tiles. -/
def mech1 (p : PlayerState) (ents : List Entity) : List Entity :=
  if p.pos.x > 7 * TILE_SIZE ∧ p.pos.y < 8 * TILE_SIZE then
    updateFirst (fun e => decide (e.id = "troll-block")) (fun e => { e with visible := true }) ents
  else ents

/-- Level 2 (Commitment Issues): the goal slides right by 8 per frame while
the player is past x = 8 tiles, capped at x = 18 tiles. -/
def mech2 (p : PlayerState) (ents : List Entity) : List Entity :=
  if p.pos.x > 8 * TILE_SIZE then
    updateFirst (fun e => decide (e.id = "goal"))
      (fun e => if e.x < 18 * TILE_SIZE then { e with x := e.x + 8 } else e) ents
  else ents

/-- Level 3 (Sandwich) per fall-spike step: idle to shaking on horizontal
proximity, shaking jitters the display position for 30 frames, then the
spike falls 9 pixels per frame. `rand` is the frame's Math.random draw. -/
def mech3Step (p : PlayerState) (rand : ℚ) (e : Entity) : Entity :=
  if strIncludes e.id "fall-spike" then
    let e :=
      if !e.falling && !e.shaking && decide (|p.pos.x - e.x| < 2.5 * TILE_SIZE) then
        { e with shaking := true, shakeTimer := 0 }
      else e
    let e :=
      if e.shaking then
        let st := e.shakeTimer + 1
        if st > 30 then
          { e with shakeTimer := st, shaking := false, falling := true, displayX := e.x }
        else { e with shakeTimer := st, displayX := e.x + (rand - 0.5) * 8 }
      else { e with displayX := e.x }
    if e.falling then { e with y := e.y + 9 } else e
  else e

/-- Level 4 (Ghosted) trap-plat step: the generic crumble logic hardcoded to
one id, without the visible-and-collidable guard on triggering. -/
def level4TrapStep (p : PlayerState) (e : Entity) : Entity :=
  let e :=
    if trapContact p e && !e.triggered then
      { e with triggered := true, timer := 0 }
    else e
  if e.triggered then
    let t := e.timer + 1
    if t > 20 then { e with timer := t, visible := false, collidable := false }
    else { e with timer := t }
  else e

/-- Level 4 mechanic: apply the trap step to the entity with id trap-plat. -/
def mech4 (p : PlayerState) (ents : List Entity) : List Entity :=
  updateFirst (fun e => decide (e.id = "trap-plat")) (level4TrapStep p) ents

/-- Level 7 (Timber) falling-pillar step: trigger once the player is past
x = 5 tiles; while triggered, gain 0.8 downward velocity per frame and
fall, stopping with the lower edge on the floor line y = 12 tiles. -/
def pillarStep (px : ℚ) (e : Entity) : Entity :=
  let e := if !e.triggered && decide (px > 5 * TILE_SIZE) then { e with triggered := true } else e
  if e.triggered then
    let vy := e.vy + 0.8
    let y := e.y + vy
    if y + e.h ≥ 12 * TILE_SIZE then { e with y := 12 * TILE_SIZE - e.h, vy := 0 }
    else { e with y := y, vy := vy }
  else e

/-- Level 7 mechanic: apply the pillar step to the falling-pillar entity. -/
def mech7 (p : PlayerState) (ents : List Entity) : List Entity :=
  updateFirst (fun e => decide (e.id = "falling-pillar")) (pillarStep p.pos.x) ents

/-- Level 8 (The Press): the crushing ceiling descends 0.6 per frame. -/
def mech8 (ents : List Entity) : List Entity :=
  updateFirst (fun e => decide (e.id = "crushing-ceiling")) (fun e => { e with y := e.y + 0.6 }) ents

/-- Level 9 (Shark) shark-spike step: track the player's x; rise toward the
floor line when the player stands still, retreat below it when moving. -/
def sharkStep (p : PlayerState) (e : Entity) : Entity :=
  let e := { e with x := p.pos.x + (PLAYER_SIZE - e.w) / 2 }
  if |p.vel.x| > 0.1 then { e with y := min (12 * TILE_SIZE + 10) (e.y + 2) }
  else { e with y := max (12 * TILE_SIZE - 30) (e.y - 5) }

/-- Level 9 mechanic: apply the shark step to the shark-spike entity. -/
def mech9 (p : PlayerState) (ents : List Entity) : List Entity :=
  updateFirst (fun e => decide (e.id = "shark-spike")) (sharkStep p) ents

/-- Level 10 (Level Devil) decoy chain: while the fake goal is visible and
the player overlaps it, remove it (invisible and non-collidable), spawn a
particle burst at its position, reveal and activate the real goal, and make
the stair entities s1 to s4 visible. -/
def mech10 (p : PlayerState) (ents : List Entity) : List Entity × List Effect :=
  match ents.find? (fun e => decide (e.id = "fake-goal")) with
  | none => (ents, [])
  | some fg =>
    if fg.visible then
      if checkCollision (playerRect p) (rectOf fg) then
        let ents := updateFirst (fun e => decide (e.id = "fake-goal"))
          (fun e => { e with visible := false, collidable := false }) ents
        let ents := updateFirst (fun e => decide (e.id = "real-goal"))
          (fun e => { e with visible := true, collidable := true }) ents
        let ents := ents.map fun e =>
          if decide (e.id = "s1") || decide (e.id = "s2") || decide (e.id = "s3") || decide (e.id = "s4") then
            { e with visible := true }
          else e
        (ents, [Effect.particles fg.x fg.y])
      else (ents, [])
    else (ents, [])

/-- updateLevelMechanics from GameCanvas.tsx: the generic property-driven
mechanics run on every entity, then the behavior hardcoded to the current
level id. The level 5 branch only writes a sinusoidal opacity hint consumed
by rendering and the level 6 ladder has no mechanic, so neither touches the
simulation state modelled here. Only the level 10 branch emits an effect
(the decoy particle burst). -/
def updateLevelMechanics (levelId : Int) (frameCount : Nat) (rand : ℚ)
    (p : PlayerState) (ents : List Entity) : List Entity × List Effect :=
  let ents := ents.map (genericTrapStep p)
  let ents := ents.map (proximityStep p)
  let ents := if levelId = 1 then mech1 p ents else ents
  let ents := if levelId = 2 then mech2 p ents else ents
  let ents := if levelId = 3 then ents.map (mech3Step p rand) else ents
  let ents := if levelId = 4 then mech4 p ents else ents
  let ents := if levelId = 7 then mech7 p ents else ents
  let ents := if levelId = 8 then mech8 ents else ents
  let ents := if levelId = 9 then mech9 p ents else ents
  if levelId = 10 then mech10 p ents else (ents, [])

/-! ### Physics integration and collision passes (update in GameCanvas.tsx) -/

/-- Horizontal velocity from held input: a fixed move speed for a held
direction, otherwise friction decay snapped to zero below 0.1. -/
def stepVelX (keys : Keys) (vx : ℚ) : ℚ :=
  if keys.right then MOVE_SPEED
  else if keys.left then -MOVE_SPEED
  else
    let v := vx * FRICTION
    if |v| < 0.1 then 0 else v

/-- Facing direction from the last held direction. -/
def stepFace (keys : Keys) (f : Bool) : Bool :=
  if keys.right then true else if keys.left then false else f

/-- Vertical velocity after the jump impulse (applied only when grounded). -/
def jumpVelY (keys : Keys) (p : PlayerState) : ℚ :=
  if keys.jump && p.isGrounded then JUMP_FORCE else p.vel.y

/-- Grounded flag after the jump step (jumping clears it immediately). -/
def jumpGrounded (keys : Keys) (p : PlayerState) : Bool :=
  if keys.jump && p.isGrounded then false else p.isGrounded

/-- Vertical velocity after jump, gravity and the fall-speed clamp. -/
def newVelY (keys : Keys) (p : PlayerState) : ℚ :=
  let v := jumpVelY keys p + GRAVITY
  if v > MAX_FALL_SPEED then MAX_FALL_SPEED else v

/-- The player after the per-frame physics integration (step 1 of update):
velocities and facing from input, jump, gravity, fall-speed clamp. The
position is untouched at this point. -/
def physPlayer (keys : Keys) (p : PlayerState) : PlayerState :=
  { p with vel := ⟨stepVelX keys p.vel.x, newVelY keys p⟩,
           isGrounded := jumpGrounded keys p,
           faceRight := stepFace keys p.faceRight }

/-- The level-bounds clamp applied to the player's x right after horizontal
velocity is added (before wall resolution). -/
def clampX (width x : ℚ) : ℚ :=
  let x := if x < 0 then 0 else x
  if x > width - PLAYER_SIZE then width - PLAYER_SIZE else x

/-- Does an entity block the player rectangle in a collision pass: it must
be collidable, a WALL, and overlap the (pass-fixed) player rectangle. -/
def hHit (r : Rect) (e : Entity) : Bool :=
  e.collidable && decide (e.type = EntityType.WALL) && checkCollision r (rectOf e)

/-- Horizontal wall resolution: iterate over the entities against the fixed
rectangle captured before the loop; each hit pushes the carried x to the
facing edge of the wall (by the sign of the carried horizontal velocity)
and zeroes that velocity. -/
def hPass (r : Rect) : List Entity → ℚ × ℚ → ℚ × ℚ
  | [], s => s
  | e :: rest, (x, vx) =>
    if hHit r e then
      hPass r rest (if vx > 0 then e.x - PLAYER_SIZE
                    else if vx < 0 then e.x + e.w else x, 0)
    else hPass r rest (x, vx)

/-- Vertical wall resolution: iterate over the entities against the fixed
rectangle captured after vertical movement; a hit while falling snaps to
the wall's top and marks the frame grounded, a hit while rising snaps to
its bottom; both zero the carried vertical velocity. -/
def vPass (r : Rect) : List Entity → ℚ × ℚ × Bool → ℚ × ℚ × Bool
  | [], s => s
  | e :: rest, (y, vy, g) =>
    if hHit r e then
      if vy > 0 then vPass r rest (e.y - PLAYER_SIZE, 0, true)
      else if vy < 0 then vPass r rest (e.y + e.h, 0, g)
      else vPass r rest (y, vy, g)
    else vPass r rest (y, vy, g)

/-- Result of the per-entity spike/goal check. -/
inductive CheckRes where
  | skip
  | death (cause : String)
  | win
deriving DecidableEq, Repr

/-- Step 5 of update, for one entity: a SPIKE overlapping the shrunk hitbox
is lethal; an overlapped GOAL kills when its fake property is set, is
skipped when its id is fake-goal, and wins otherwise. -/
def entCheck (fr sr : Rect) (e : Entity) : CheckRes :=
  if decide (e.type = EntityType.SPIKE) && checkCollision sr (rectOf e) then
    CheckRes.death "Spiked"
  else if decide (e.type = EntityType.GOAL) && checkCollision fr (rectOf e) then
    if e.fake then CheckRes.death "It was a trap!"
    else if decide (e.id = "fake-goal") then CheckRes.skip
    else CheckRes.win
  else CheckRes.skip

/-- The spike/goal loop: entities in list order, short-circuiting on the
first terminal result. -/
def runChecks (fr sr : Rect) : List Entity → CheckRes
  | [] => CheckRes.skip
  | e :: rest =>
    match entCheck fr sr e with
    | CheckRes.skip => runChecks fr sr rest
    | r => r

/-- One frame's outputs: the next simulation state and the effects emitted
(particle bursts, sound, onDie, onWin). -/
structure FrameOut where
  state : GameState
  effects : List Effect
deriving DecidableEq, Repr

/-- The mechanics result for the frame (entities after updateLevelMechanics
and its effects), fed the physics-integrated player as in the source. -/
def mechRes (level : LevelData) (keys : Keys) (rand : ℚ) (s : GameState) :
    List Entity × List Effect :=
  updateLevelMechanics level.id s.frameCount rand (physPlayer keys s.player) s.entities

/-- The player's x after horizontal velocity and the bounds clamp. -/
def hClampedX (level : LevelData) (keys : Keys) (s : GameState) : ℚ :=
  clampX level.width (s.player.pos.x + stepVelX keys s.player.vel.x)

/-- The fixed rectangle of the horizontal pass. -/
def hRect (level : LevelData) (keys : Keys) (s : GameState) : Rect :=
  ⟨hClampedX level keys s, s.player.pos.y, PLAYER_SIZE, PLAYER_SIZE⟩

/-- Position and velocity after the horizontal pass. -/
def hRes (level : LevelData) (keys : Keys) (rand : ℚ) (s : GameState) : ℚ × ℚ :=
  hPass (hRect level keys s) (mechRes level keys rand s).1
    (hClampedX level keys s, stepVelX keys s.player.vel.x)

/-- The player's y after vertical velocity is applied. -/
def yApplied (keys : Keys) (s : GameState) : ℚ :=
  s.player.pos.y + newVelY keys s.player

/-- The fixed rectangle of the vertical pass. -/
def vRect (level : LevelData) (keys : Keys) (rand : ℚ) (s : GameState) : Rect :=
  ⟨(hRes level keys rand s).1, yApplied keys s, PLAYER_SIZE, PLAYER_SIZE⟩

/-- Position, velocity and grounded flag after the vertical pass (the
grounded accumulator starts false each frame). -/
def vRes (level : LevelData) (keys : Keys) (rand : ℚ) (s : GameState) :
    ℚ × ℚ × Bool :=
  vPass (vRect level keys rand s) (mechRes level keys rand s).1
    (yApplied keys s, newVelY keys s.player, false)

/-- One frame of the main game loop in the PLAYING state (update in
GameCanvas.tsx): physics integration, level mechanics, horizontal pass with
bounds clamp, vertical movement with the void check (an unconditional death
that ends the frame before the vertical resolution and the spike/goal
checks), vertical resolution setting the grounded flag, then the spike/goal
loop; the frame counter advances only when no terminal result occurred. -/
def update (level : LevelData) (keys : Keys) (rand : ℚ) (s : GameState) : FrameOut :=
  let p1 := physPlayer keys s.player
  let me := mechRes level keys rand s
  let hv := hRes level keys rand s
  let y1 := yApplied keys s
  if y1 > level.height + 100 then
    let pd := handleDeath "Fell into the void"
      { p1 with pos := ⟨hv.1, y1⟩, vel := ⟨hv.2, p1.vel.y⟩ }
    ⟨⟨pd.1, me.1, s.frameCount⟩, me.2 ++ pd.2⟩
  else
    let vv := vRes level keys rand s
    let p2 : PlayerState :=
      { p1 with pos := ⟨hv.1, vv.1⟩, vel := ⟨hv.2, vv.2.1⟩, isGrounded := vv.2.2 }
    let fr : Rect := ⟨hv.1, vv.1, PLAYER_SIZE, PLAYER_SIZE⟩
    let sr : Rect := ⟨hv.1 + 6, vv.1 + 6, PLAYER_SIZE - 12, PLAYER_SIZE - 12⟩
    match runChecks fr sr me.1 with
    | CheckRes.death c =>
        let pd := handleDeath c p2
        ⟨⟨pd.1, me.1, s.frameCount⟩, me.2 ++ pd.2⟩
    | CheckRes.win => ⟨⟨p2, me.1, s.frameCount⟩, me.2 ++ [Effect.win]⟩
    | CheckRes.skip => ⟨⟨p2, me.1, s.frameCount + 1⟩, me.2⟩

/-! ### Level data (src/constants.ts) and run helpers -/

/-- createRect from src/constants.ts: a grid-based entity, visible and
collidable, with coordinates scaled by the tile size. -/
def createRect (x y w h : ℚ) (t : EntityType) (id : String) : Entity :=
  { id := id, type := t, x := x * TILE_SIZE, y := y * TILE_SIZE,
    w := w * TILE_SIZE, h := h * TILE_SIZE }

/-- The level 7 falling pillar as authored (in the sky, untriggered). -/
def pillar0 : Entity := createRect 10 1 2 4 EntityType.WALL "falling-pillar"

/-- Level 7 (Timber!) from src/constants.ts. -/
def level7 : LevelData :=
  { id := 7, name := "Timber!", description := "Run! Do not stop.",
    startPos := ⟨2 * TILE_SIZE, 10 * TILE_SIZE⟩,
    width := 20 * TILE_SIZE, height := 12 * TILE_SIZE,
    entities :=
      [createRect 0 0 1 12 EntityType.WALL "left-wall",
       createRect 19 0 1 12 EntityType.WALL "right-wall",
       createRect 0 0 20 1 EntityType.WALL "ceiling",
       createRect 0 12 20 1 EntityType.WALL "floor",
       createRect 17 10 1 2 EntityType.GOAL "goal",
       pillar0,
       createRect 6 11 1 1 EntityType.SPIKE "ground-spike"] }

/-- Level 10 (Level Devil) from src/constants.ts: the bait goal has no fake
property, the real goal starts invisible and non-collidable, and the four
stair entities start invisible but collidable. -/
def level10 : LevelData :=
  { id := 10, name := "Level Devil", description := "Everything is a lie.",
    startPos := ⟨2 * TILE_SIZE, 10 * TILE_SIZE⟩,
    width := 22 * TILE_SIZE, height := 14 * TILE_SIZE,
    entities :=
      [createRect 0 0 1 14 EntityType.WALL "left-wall",
       createRect 21 0 1 14 EntityType.WALL "right-wall",
       createRect 0 0 22 1 EntityType.WALL "ceiling",
       createRect 0 12 8 2 EntityType.WALL "floor-1",
       createRect 8 13 14 1 EntityType.SPIKE "pit",
       createRect 16 10 4 1 EntityType.WALL "plat",
       createRect 18 8 1 2 EntityType.GOAL "fake-goal",
       { createRect 2 3 1 2 EntityType.GOAL "real-goal" with
           visible := false, collidable := false },
       { createRect 14 9 2 1 EntityType.WALL "s1" with visible := false },
       { createRect 12 7 2 1 EntityType.WALL "s2" with visible := false },
       { createRect 10 5 2 1 EntityType.WALL "s3" with visible := false },
       { createRect 6 4 2 1 EntityType.WALL "s4" with visible := false }] }

/-- The simulation state right after a level (re)load: working entity list
copied from the level, player at the start position with zero velocity,
alive, ungrounded, facing right, frame counter zero. -/
def startState (level : LevelData) : GameState :=
  ⟨⟨level.startPos, ⟨0, 0⟩, false, false, true⟩, level.entities, 0⟩

/-- Visibility of the first entity with a given id (false if absent). -/
def entVisible (ents : List Entity) (id : String) : Bool :=
  match ents.find? (fun e => decide (e.id = id)) with
  | some e => e.visible
  | none => false

/-- Collidability of the first entity with a given id (false if absent). -/
def entCollidable (ents : List Entity) (id : String) : Bool :=
  match ents.find? (fun e => decide (e.id = id)) with
  | some e => e.collidable
  | none => false

/-- The entity list after the level 10 reveal fires on the authored level. -/
def reveal10 (p : PlayerState) : List Entity := (mech10 p level10.entities).1

/-- Iterated generic crumbling-trap mechanic along a player trajectory:
`trapRunG traj e0 n` is the trap entity after `n` frames. -/
def trapRunG (traj : Nat → PlayerState) (e0 : Entity) : Nat → Entity
  | 0 => e0
  | n + 1 => genericTrapStep (traj n) (trapRunG traj e0 n)

/-- Iterated level 4 trap-plat mechanic along a player trajectory. -/
def trapRun4 (traj : Nat → PlayerState) (e0 : Entity) : Nat → Entity
  | 0 => e0
  | n + 1 => level4TrapStep (traj n) (trapRun4 traj e0 n)

/-- Iterated level 7 pillar mechanic along a player x trajectory, from the
authored pillar. -/
def pillarRun (px : Nat → ℚ) : Nat → Entity
  | 0 => pillar0
  | n + 1 => pillarStep (px n) (pillarRun px n)

/-! ### Concrete fixtures used by counterexamples and witnesses -/

/-- The authored level 4 trap platform. -/
def trapPlat : Entity := createRect 7 7 5 1 EntityType.WALL "trap-plat"

/-- A player trajectory with qualifying trap contact exactly at frame 0:
grounded on the trap platform once, then away and airborne. -/
def oneTouchTraj : Nat → PlayerState
  | 0 => ⟨⟨290, 255⟩, ⟨0, 0⟩, true, false, true⟩
  | _ + 1 => ⟨⟨1000, 1000⟩, ⟨0, 0⟩, false, false, true⟩

/-- A player trajectory grounded on the trap platform every frame. -/
def alwaysTouchTraj : Nat → PlayerState :=
  fun _ => ⟨⟨290, 255⟩, ⟨0, 0⟩, true, false, true⟩

/-- A small custom level whose only wall overlaps the right boundary strip
(the schema allows arbitrary wall placement). -/
def cxClampLevel : LevelData :=
  { id := 0, name := "clamp", description := "clamp", startPos := ⟨0, 0⟩,
    width := 200, height := 200,
    entities := [{ id := "w", type := EntityType.WALL,
                   x := 160, y := 0, w := 100, h := 30 }] }

/-- A state inside that wall region, moving left. -/
def cxClampState : GameState :=
  ⟨⟨⟨165, 0⟩, ⟨0, 0⟩, false, false, true⟩, cxClampLevel.entities, 0⟩

/-- A custom level with a ledge whose top edge sits just above the void
line (height 480, wall top at y 609.7, void line at 580). -/
def cxVoidLevel : LevelData :=
  { id := 0, name := "ledge", description := "ledge", startPos := ⟨50, 579.4⟩,
    width := 200, height := 480,
    entities := [{ id := "ledge", type := EntityType.WALL,
                   x := 40, y := 609.7, w := 60, h := 40 }] }

/-- A custom level listing a goal before an overlapping spike. -/
def cxOrderLevel : LevelData :=
  { id := 0, name := "order", description := "order", startPos := ⟨0, 0⟩,
    width := 400, height := 400,
    entities :=
      [{ createRect 0 0 2 2 EntityType.GOAL "goal" with x := 0, y := 0 },
       { createRect 0 0 2 2 EntityType.SPIKE "spike" with x := 0, y := 0 }] }

/-- A state overlapping both entities of cxOrderLevel. -/
def cxOrderState : GameState :=
  ⟨⟨⟨10, 10⟩, ⟨0, 0⟩, false, false, true⟩, cxOrderLevel.entities, 0⟩

/-- A state overlapping the level 10 bait goal (which spans x 720 to 760,
y 320 to 400). -/
def cxDecoyState : GameState :=
  ⟨⟨⟨715, 340⟩, ⟨0, 0⟩, false, false, true⟩, level10.entities, 0⟩

/-- A state above the void line of cxClampLevel (height 200), with no
entities at all. -/
def wVoidState : GameState :=
  ⟨⟨⟨0, 300⟩, ⟨0, 0⟩, false, false, true⟩, [], 0⟩

/-- An in-air state well above the void line, with no entities at all. -/
def wAirState : GameState :=
  ⟨⟨⟨0, 0⟩, ⟨0, 0⟩, false, false, true⟩, [], 0⟩

/-- The authored level 10 bait goal entity. -/
def fg0 : Entity := createRect 18 8 1 2 EntityType.GOAL "fake-goal"

/-- A player overlapping the level 10 bait goal. -/
def wDecoyPlayer : PlayerState := ⟨⟨715, 340⟩, ⟨0, 0⟩, false, false, true⟩

/-- The level 10 working entity list right after the decoy reveal fires
(the reveal mutations do not depend on the player, so evaluating the
mechanic at one triggering player gives the list for all of them). -/
def revealedEnts : List Entity := (mech10 wDecoyPlayer level10.entities).1

/-- A run of the built-in level 10 from level load: iterated frames of the
game loop along arbitrary per-frame key and random-draw trajectories. -/
def run10 (keys : Nat → Keys) (rand : Nat → ℚ) : Nat → GameState
  | 0 => startState level10
  | n + 1 => (update level10 (keys n) (rand n) (run10 keys rand n)).state

/-! ### Taunt generation (src/unnamed/part_000) -/

/-- The fixed local fallback taunt set FALLBACK_TAUNTS. -/
def FALLBACK_TAUNTS : List String :=
  ["重力检测：通过。",
   "你忘记怎么跳了吗？",
   "这看起来很痛。",
   "也许试试...不要死？",
   "检测到操作失误。",
   "地板是烫的吗？哦等等，是刺。",
   "你试过睁开眼睛玩吗？",
   "哎呀。",
   "愤怒退出是个不错的选择。",
   "我奶奶都比你玩得好。"]

/-- Environment of one generateTaunt call: whether the API_KEY credential is
present, whether the GoogleGenAI constructor succeeded at module load, the
outcome of the generateContent call (an error, or a response whose text may
be absent or empty), and the Math.random draw used to pick a fallback. -/
structure TauntEnv where
  hasApiKey : Bool
  aiInitOk : Bool
  apiResponse : Except String (Option String)
  rand : Fin 10

/-- Fallback selection FALLBACK_TAUNTS[Math.floor(Math.random()*length)]. -/
def pickFallback (r : Fin 10) : String := FALLBACK_TAUNTS.getD r.val ""

/-- generateTaunt from the taunt module: if the AI client is unavailable
(missing credential or failed initialization) it returns a fallback taunt;
otherwise it attempts the API call, returning the trimmed response text on
success and a fallback taunt when the call throws or the response carries
no (or an empty) text. The level name, death count and cause only feed the
prompt and never influence whether a string is produced. -/
def generateTaunt (env : TauntEnv) (levelName : String) (deathCount : Nat)
    (cause : String) : String :=
  if env.hasApiKey = true ∧ env.aiInitOk = true then
    match env.apiResponse with
    | Except.error _ => pickFallback env.rand
    | Except.ok none => pickFallback env.rand
    | Except.ok (some t) => if t = "" then pickFallback env.rand else t.trim
  else pickFallback env.rand

/-! ### C10: death handler idempotence -/

theorem handleDeath_dead (cause : String) (p : PlayerState) (h : p.dead = true) :
    handleDeath cause p = (p, []) := by
  simp [handleDeath, h]

theorem handleDeath_alive_dead (cause : String) (p : PlayerState)
    (h : p.dead = false) : (handleDeath cause p).1.dead = true := by
  simp [handleDeath, h]

theorem deathFold_dead (causes : List String) (p : PlayerState)
    (h : p.dead = true) : deathFold causes p = (p, []) := by
  induction causes with
  | nil => rfl
  | cons c rest ih => simp [deathFold, handleDeath_dead c p h, ih]

theorem countDie_deathFold_le_one (causes : List String) (p : PlayerState) :
    countDie (deathFold causes p).2 ≤ 1 := by
  induction causes generalizing p with
  | nil => simp [deathFold, countDie]
  | cons c rest ih =>
      by_cases h : p.dead = true
      · simp [deathFold_dead _ _ h, countDie]
      · have h' : p.dead = false := by
          cases hd : p.dead
          · rfl
          · exact absurd hd h
        have hdead := handleDeath_alive_dead c p h'
        simp only [deathFold]
        rw [deathFold_dead _ _ hdead]
        simp [handleDeath, h', countDie, isDie]

/-- C10: the death handler is idempotent per attempt. Once the player is
dead, a further death condition changes no state and emits no particle
burst, sound or onDie callback; across any sequence of death conditions in
an attempt, at most one onDie callback is ever emitted, and none at all
once the player is already dead. -/
theorem c10_death_idempotent :
    (∀ (cause : String) (p : PlayerState), p.dead = true →
        handleDeath cause p = (p, [])) ∧
    (∀ (causes : List String) (p : PlayerState),
        countDie (deathFold causes p).2 ≤ 1) ∧
    (∀ (causes : List String) (p : PlayerState), p.dead = true →
        countDie (deathFold causes p).2 = 0) := by
  refine ⟨handleDeath_dead, countDie_deathFold_le_one, ?_⟩
  intro causes p h
  rw [deathFold_dead causes p h]
  simp [countDie]

/-- Witness for C10: a concrete already-dead player is left untouched, with
no effects, by a further death condition. -/
theorem c10_death_idempotent_witness :
    handleDeath "Spiked" ⟨⟨1, 2⟩, ⟨0, 0⟩, false, true, true⟩ =
      (⟨⟨1, 2⟩, ⟨0, 0⟩, false, true, true⟩, []) :=
  c10_death_idempotent.1 "Spiked" ⟨⟨1, 2⟩, ⟨0, 0⟩, false, true, true⟩ rfl

/-! ### C9: taunt generation -/

theorem pickFallback_mem (r : Fin 10) : pickFallback r ∈ FALLBACK_TAUNTS := by
  revert r; decide

/-- C9: generateTaunt is total (never raises): for every input and every
failure mode (missing credential, failed AI initialization, API error,
absent or empty response text) it resolves to a member of the fixed local
fallback set, and in general its result is always either a fallback taunt
or the trimmed text of a successful non-empty response. -/
theorem c9_taunt_never_fails :
    (∀ (env : TauntEnv) (n : String) (d : Nat) (c : String),
        (¬(env.hasApiKey = true ∧ env.aiInitOk = true)) ∨
          (∃ msg, env.apiResponse = Except.error msg) ∨
          env.apiResponse = Except.ok none ∨
          env.apiResponse = Except.ok (some "") →
        generateTaunt env n d c ∈ FALLBACK_TAUNTS) ∧
    (∀ (env : TauntEnv) (n : String) (d : Nat) (c : String),
        generateTaunt env n d c ∈ FALLBACK_TAUNTS ∨
          ∃ t, env.apiResponse = Except.ok (some t) ∧ t ≠ "" ∧
            generateTaunt env n d c = t.trim) := by
  constructor
  · intro env n d c hfail
    rcases hfail with h | ⟨msg, h⟩ | h | h
    · simp [generateTaunt, h, pickFallback_mem]
    · by_cases hk : env.hasApiKey = true ∧ env.aiInitOk = true
      · simp [generateTaunt, hk, h, pickFallback_mem]
      · simp [generateTaunt, hk, pickFallback_mem]
    · by_cases hk : env.hasApiKey = true ∧ env.aiInitOk = true
      · simp [generateTaunt, hk, h, pickFallback_mem]
      · simp [generateTaunt, hk, pickFallback_mem]
    · by_cases hk : env.hasApiKey = true ∧ env.aiInitOk = true
      · simp [generateTaunt, hk, h, pickFallback_mem]
      · simp [generateTaunt, hk, pickFallback_mem]
  · intro env n d c
    by_cases hk : env.hasApiKey = true ∧ env.aiInitOk = true
    · rcases hresp : env.apiResponse with msg | topt
      · left; simp [generateTaunt, hk, hresp, pickFallback_mem]
      · rcases topt with _ | t
        · left; simp [generateTaunt, hk, hresp, pickFallback_mem]
        · by_cases ht : t = ""
          · left; simp [generateTaunt, hk, hresp, ht, pickFallback_mem]
          · right; exact ⟨t, rfl, ht, by simp [generateTaunt, hk, hresp, ht]⟩
    · left; simp [generateTaunt, hk, pickFallback_mem]

/-- Witness for C9: with the credential missing, a concrete call resolves to
a member of the fallback set. -/
theorem c9_taunt_never_fails_witness :
    generateTaunt ⟨false, false, Except.error "network", 0⟩ "Timber!" 3 "Spiked"
      ∈ FALLBACK_TAUNTS :=
  c9_taunt_never_fails.1 ⟨false, false, Except.error "network", 0⟩ "Timber!" 3
    "Spiked" (Or.inl (by simp))

/-! ### C3: horizontal bounds -/

theorem clampX_bounds (width x : ℚ) (hW : PLAYER_SIZE ≤ width) :
    0 ≤ clampX width x ∧ clampX width x ≤ width - PLAYER_SIZE := by
  have h0 : (0 : ℚ) ≤ width - PLAYER_SIZE := by linarith
  simp only [clampX]
  by_cases h1 : x < 0
  · rw [if_pos h1]
    by_cases h2 : (0 : ℚ) > width - PLAYER_SIZE
    · rw [if_pos h2]; exact ⟨h0, le_refl _⟩
    · rw [if_neg h2]; exact ⟨le_refl (0 : ℚ), h0⟩
  · rw [if_neg h1]
    by_cases h2 : x > width - PLAYER_SIZE
    · rw [if_pos h2]; exact ⟨h0, le_refl _⟩
    · rw [if_neg h2]; exact ⟨le_of_not_lt h1, le_of_not_lt h2⟩

theorem hPass_no_hit (r : Rect) (ents : List Entity) (x vx : ℚ)
    (h : ∀ e ∈ ents, hHit r e = false) : hPass r ents (x, vx) = (x, vx) := by
  induction ents generalizing x vx with
  | nil => rfl
  | cons e rest ih =>
      have he := h e (List.mem_cons_self e rest)
      simp only [hPass, he, Bool.false_eq_true, if_false]
      exact ih x vx fun e' he' => h e' (List.mem_cons_of_mem _ he')

/-- C3 (corrected): the bounds clamp applied right after horizontal velocity
guarantees 0 ≤ x ≤ level.width − PLAYER_SIZE at that point (whenever the
level is at least a player wide), and the subsequent wall-resolution loop
preserves the clamped position whenever it resolves no collision. The
original claim — that the bounds hold after the whole pass regardless of
wall placement — is refuted by c3_counterexample: resolution runs after the
clamp and can push the player outside the bounds. -/
theorem c3_horizontal_bounds (width x vx y : ℚ) (ents : List Entity)
    (hW : PLAYER_SIZE ≤ width) :
    (0 ≤ clampX width x ∧ clampX width x ≤ width - PLAYER_SIZE) ∧
    ((∀ e ∈ ents, hHit ⟨clampX width x, y, PLAYER_SIZE, PLAYER_SIZE⟩ e = false) →
      hPass ⟨clampX width x, y, PLAYER_SIZE, PLAYER_SIZE⟩ ents (clampX width x, vx) =
        (clampX width x, vx)) :=
  ⟨clampX_bounds width x hW, fun h => hPass_no_hit _ ents _ vx h⟩

/-- C3 counterexample: on a 200-wide level whose wall overlaps the right
boundary strip, a frame that moves the player left into that wall ends with
the player at x = 260, beyond level.width − PLAYER_SIZE = 170 — the
horizontal pass does not keep 0 ≤ x ≤ width − PLAYER_SIZE for every wall
placement. -/
theorem c3_counterexample :
    (update cxClampLevel ⟨false, true, false⟩ 0 cxClampState).state.player.pos.x = 260 ∧
    cxClampLevel.width - PLAYER_SIZE = 170 ∧ ¬((260 : ℚ) ≤ 170) := by decide

/-- Witness for C3 at a concrete clamp input. -/
theorem c3_horizontal_bounds_witness :
    0 ≤ clampX 200 500 ∧ clampX 200 500 ≤ 200 - PLAYER_SIZE :=
  (c3_horizontal_bounds 200 500 0 0 [] (by decide)).1

/-! ### C6: the void check -/

theorem mech10_effects (p : PlayerState) (ents : List Entity) :
    (mech10 p ents).2 = [] ∨ ∃ a b, (mech10 p ents).2 = [Effect.particles a b] := by
  unfold mech10
  rcases hf : ents.find? (fun e => decide (e.id = "fake-goal")) with _ | fg
  · rw [hf]
    exact Or.inl rfl
  · rw [hf]
    cases hv : fg.visible
    · simp [hv]
    · cases hc : checkCollision (playerRect p) (rectOf fg)
      · simp [hv, hc]
      · exact Or.inr ⟨fg.x, fg.y, by simp [hv, hc]⟩

theorem mechRes_effects (level : LevelData) (keys : Keys) (rand : ℚ) (s : GameState) :
    (mechRes level keys rand s).2 = [] ∨
      ∃ a b, (mechRes level keys rand s).2 = [Effect.particles a b] := by
  unfold mechRes updateLevelMechanics
  by_cases h10 : level.id = 10
  · rw [if_pos h10]
    exact mech10_effects _ _
  · rw [if_neg h10]
    exact Or.inl rfl

theorem firstDie_shape_append (l1 l2 : List Effect)
    (h : l1 = [] ∨ ∃ a b, l1 = [Effect.particles a b]) :
    firstDie (l1 ++ l2) = firstDie l2 := by
  rcases h with h | ⟨a, b, h⟩ <;> subst h <;> rfl

theorem hasWin_shape_append (l1 l2 : List Effect)
    (h : l1 = [] ∨ ∃ a b, l1 = [Effect.particles a b]) :
    hasWin (l1 ++ l2) = hasWin l2 := by
  rcases h with h | ⟨a, b, h⟩ <;> subst h <;> rfl

/-- C6: whenever the player's y after vertical velocity is applied exceeds
level.height + 100, the frame ends in a death with cause Fell into the
void and never a win — for every x, every entity list (so before any spike
or goal check can produce a different terminal result) and every level. -/
theorem c6_void_death (level : LevelData) (keys : Keys) (rand : ℚ) (s : GameState)
    (halive : s.player.dead = false)
    (hy : yApplied keys s > level.height + 100) :
    firstDie (update level keys rand s).effects = some "Fell into the void" ∧
    hasWin (update level keys rand s).effects = false := by
  have hd : (physPlayer keys s.player).dead = false := by
    simp [physPlayer, halive]
  have heff : (update level keys rand s).effects =
      (mechRes level keys rand s).2 ++
        [Effect.particles (hRes level keys rand s).1 (yApplied keys s), Effect.sound,
         Effect.die (hRes level keys rand s).1 (yApplied keys s) "Fell into the void"] := by
    simp only [update]
    rw [if_pos hy]
    simp [handleDeath, hd]
  rw [heff,
      firstDie_shape_append _ _ (mechRes_effects level keys rand s),
      hasWin_shape_append _ _ (mechRes_effects level keys rand s)]
  exact ⟨rfl, rfl⟩

/-- Witness for C6: a concrete frame falling past the void line dies with
the void cause. -/
theorem c6_void_death_witness :
    firstDie (update cxClampLevel noKeys 0 wVoidState).effects = some "Fell into the void" ∧
    hasWin (update cxClampLevel noKeys 0 wVoidState).effects = false :=
  c6_void_death cxClampLevel noKeys 0 wVoidState rfl (by decide)

/-! ### C5: the grounded flag -/

theorem vPass_grounded (r : Rect) (ents : List Entity) (y vy : ℚ) (g : Bool) :
    (vPass r ents (y, vy, g)).2.2 =
      (g || (decide (vy > 0) && ents.any fun e => hHit r e)) := by
  induction ents generalizing y vy g with
  | nil => simp [vPass]
  | cons e rest ih =>
      cases he : hHit r e
      · simp [vPass, he, ih]
      · by_cases hvy : vy > 0
        · simp [vPass, he, hvy, ih]
        · by_cases hvy2 : vy < 0
          · have : ¬(0 : ℚ) > 0 := lt_irrefl 0
            simp [vPass, he, hvy, hvy2, ih, this]
          · simp [vPass, he, hvy, hvy2, ih]

theorem update_isGrounded_nonvoid (level : LevelData) (keys : Keys) (rand : ℚ)
    (s : GameState) (h : ¬ yApplied keys s > level.height + 100) :
    (update level keys rand s).state.player.isGrounded =
      (vRes level keys rand s).2.2 := by
  simp only [update]
  rw [if_neg h]
  rcases hrc : runChecks ⟨(hRes level keys rand s).1, (vRes level keys rand s).1,
      PLAYER_SIZE, PLAYER_SIZE⟩
      ⟨(hRes level keys rand s).1 + 6, (vRes level keys rand s).1 + 6,
       PLAYER_SIZE - 12, PLAYER_SIZE - 12⟩ (mechRes level keys rand s).1 with _ | c | _ <;>
    simp [hrc, handleDeath] <;> split <;> rfl

theorem update_isGrounded_void (level : LevelData) (keys : Keys) (rand : ℚ)
    (s : GameState) (h : yApplied keys s > level.height + 100) :
    (update level keys rand s).state.player.isGrounded = jumpGrounded keys s.player := by
  simp only [update]
  rw [if_pos h]
  simp only [handleDeath]
  split <;> simp [physPlayer]

/-- C5 (corrected): for every frame that passes the void check, the grounded
flag at frame end equals exactly "the player is falling this frame and some
collidable WALL overlaps the fixed vertical-pass rectangle" — the
disjunction of this frame's downward floor resolutions, false by default
with no carry-over. In a frame terminated by the void check, however, the
flag is never reassigned: it keeps its pre-frame value (as modified by the
jump step), so the claimed biconditional fails there. -/
theorem c5_grounded_characterization (level : LevelData) (keys : Keys) (rand : ℚ)
    (s : GameState) :
    (¬ yApplied keys s > level.height + 100 →
      (update level keys rand s).state.player.isGrounded =
        (decide (newVelY keys s.player > 0) &&
          (mechRes level keys rand s).1.any fun e => hHit (vRect level keys rand s) e)) ∧
    (yApplied keys s > level.height + 100 →
      (update level keys rand s).state.player.isGrounded = jumpGrounded keys s.player) := by
  constructor
  · intro h
    rw [update_isGrounded_nonvoid level keys rand s h]
    unfold vRes
    rw [vPass_grounded]
    simp
  · exact update_isGrounded_void level keys rand s

set_option maxRecDepth 4000 in
/-- C5 counterexample: on a level with a ledge just above the void line, the
player lands (grounded true), and on the next frame gravity pushes it past
the void line: that frame dies with cause Fell into the void before the
vertical pass, leaving isGrounded true at frame end — carried over from the
previous frame with no floor resolution this frame (the position y = 580.3
shows no snap to the ledge top 579.7 happened). -/
theorem c5_counterexample :
    (update cxVoidLevel noKeys 0 (startState cxVoidLevel)).state.player.isGrounded = true ∧
    firstDie (update cxVoidLevel noKeys 0
        (update cxVoidLevel noKeys 0 (startState cxVoidLevel)).state).effects =
      some "Fell into the void" ∧
    (update cxVoidLevel noKeys 0
        (update cxVoidLevel noKeys 0 (startState cxVoidLevel)).state).state.player.isGrounded
      = true ∧
    (update cxVoidLevel noKeys 0
        (update cxVoidLevel noKeys 0 (startState cxVoidLevel)).state).state.player.pos.y
      = 580.3 := by decide

/-- Witness for C5: a concrete frame with no entities ends ungrounded. -/
theorem c5_grounded_characterization_witness :
    (update cxClampLevel noKeys 0 wAirState).state.player.isGrounded = false := by
  have h := (c5_grounded_characterization cxClampLevel noKeys 0 wAirState).1 (by decide)
  rw [h]
  decide

/-! ### C7 and C1: the spike and goal checks -/

theorem runChecks_append_skip (fr sr : Rect) (pre rest : List Entity)
    (h : ∀ e ∈ pre, entCheck fr sr e = CheckRes.skip) :
    runChecks fr sr (pre ++ rest) = runChecks fr sr rest := by
  induction pre with
  | nil => rfl
  | cons e pre ih =>
      have he := h e (List.mem_cons_self e pre)
      rw [List.cons_append, runChecks, he]
      exact ih fun e' he' => h e' (List.mem_cons_of_mem _ he')

/-- C7 (corrected): the hazard check tests the player hitbox inset by 6
pixels per side against SPIKE entities, and a SPIKE overlapping that shrunk
hitbox produces death with cause Spiked regardless of the spike's visible
and collidable flags (the check reads neither) — provided no earlier entity
in list order already produced a terminal result, since the loop
short-circuits entity by entity (c7_counterexample shows an earlier
overlapped goal winning instead). -/
theorem c7_spike_lethal (fr sr : Rect) (pre post : List Entity) (e : Entity)
    (hpre : ∀ x ∈ pre, entCheck fr sr x = CheckRes.skip)
    (htype : e.type = EntityType.SPIKE)
    (hov : checkCollision sr (rectOf e) = true) :
    runChecks fr sr (pre ++ e :: post) = CheckRes.death "Spiked" := by
  rw [runChecks_append_skip fr sr pre (e :: post) hpre]
  have hc : entCheck fr sr e = CheckRes.death "Spiked" := by
    simp [entCheck, htype, hov]
  rw [runChecks, hc]

/-- C7 counterexample: with a goal listed before a spike and both overlapped,
the frame ends in a win and no death at all, although a SPIKE entity
overlaps the shrunk hitbox — overlap with a spike does not always cause
death with cause Spiked. -/
theorem c7_counterexample :
    hasWin (update cxOrderLevel noKeys 0 cxOrderState).effects = true ∧
    firstDie (update cxOrderLevel noKeys 0 cxOrderState).effects = none ∧
    (update cxOrderLevel noKeys 0 cxOrderState).state.entities.any
      (fun e => decide (e.type = EntityType.SPIKE) &&
        checkCollision
          ⟨(update cxOrderLevel noKeys 0 cxOrderState).state.player.pos.x + 6,
           (update cxOrderLevel noKeys 0 cxOrderState).state.player.pos.y + 6,
           PLAYER_SIZE - 12, PLAYER_SIZE - 12⟩ (rectOf e)) = true := by decide

/-- Witness for C7: a lone overlapped spike, invisible and non-collidable,
still produces the Spiked death. -/
theorem c7_spike_lethal_witness :
    runChecks ⟨10, 10, 30, 30⟩ ⟨16, 16, 18, 18⟩
      [{ createRect 0 0 2 2 EntityType.SPIKE "s" with
           visible := false, collidable := false }] = CheckRes.death "Spiked" :=
  c7_spike_lethal ⟨10, 10, 30, 30⟩ ⟨16, 16, 18, 18⟩ [] []
    { createRect 0 0 2 2 EntityType.SPIKE "s" with visible := false, collidable := false }
    (by intro x hx; cases hx) rfl (by decide)

/-- C1 (corrected): in the goal check, an overlapped GOAL entity whose fake
property is set produces death with cause It was a trap! and never a win;
an overlapped GOAL whose id is fake-goal but whose fake property is unset —
which is exactly the built-in level 10 decoy — is skipped, producing
neither death nor win (its removal is handled by the level 10 mechanic);
any other overlapped GOAL produces a win. All three assume no earlier
entity in list order already produced a terminal result. -/
theorem c1_goal_decoy (fr sr : Rect) (pre post : List Entity) (e : Entity)
    (hpre : ∀ x ∈ pre, entCheck fr sr x = CheckRes.skip)
    (hg : e.type = EntityType.GOAL)
    (hov : checkCollision fr (rectOf e) = true) :
    (e.fake = true →
      runChecks fr sr (pre ++ e :: post) = CheckRes.death "It was a trap!") ∧
    (e.fake = false → e.id = "fake-goal" →
      runChecks fr sr (pre ++ e :: post) = runChecks fr sr post) ∧
    (e.fake = false → e.id ≠ "fake-goal" →
      runChecks fr sr (pre ++ e :: post) = CheckRes.win) := by
  rw [runChecks_append_skip fr sr pre (e :: post) hpre]
  refine ⟨fun hfake => ?_, fun hfake hid => ?_, fun hfake hid => ?_⟩
  · have hc : entCheck fr sr e = CheckRes.death "It was a trap!" := by
      simp [entCheck, hg, hov, hfake]
    rw [runChecks, hc]
  · have hc : entCheck fr sr e = CheckRes.skip := by
      simp [entCheck, hg, hov, hfake, hid]
    rw [runChecks, hc]
  · have hc : entCheck fr sr e = CheckRes.win := by
      simp [entCheck, hg, hov, hfake, hid]
    rw [runChecks, hc]

/-- C1 counterexample: a full frame of the built-in level 10 with the player
overlapping the decoy goal (id fake-goal) produces no death — in
particular not It was a trap! — and no win; the decoy poofs (particle
burst) and the reveal runs instead. The final player rectangle still
overlaps the decoy's rectangle, so the goal check did see the overlap. -/
theorem c1_counterexample :
    firstDie (update level10 noKeys 0 cxDecoyState).effects = none ∧
    hasWin (update level10 noKeys 0 cxDecoyState).effects = false ∧
    (update level10 noKeys 0 cxDecoyState).effects = [Effect.particles 720 320] ∧
    checkCollision
      ⟨(update level10 noKeys 0 cxDecoyState).state.player.pos.x,
       (update level10 noKeys 0 cxDecoyState).state.player.pos.y,
       PLAYER_SIZE, PLAYER_SIZE⟩ ⟨720, 320, 40, 80⟩ = true := by decide

/-- Witness for C1: an editor-style decoy goal carrying the fake property
produces the trap death when overlapped. -/
theorem c1_goal_decoy_witness :
    runChecks ⟨10, 10, 30, 30⟩ ⟨16, 16, 18, 18⟩
      [{ createRect 0 0 2 2 EntityType.GOAL "editor-goal" with fake := true }] =
      CheckRes.death "It was a trap!" :=
  (c1_goal_decoy ⟨10, 10, 30, 30⟩ ⟨16, 16, 18, 18⟩ [] []
    { createRect 0 0 2 2 EntityType.GOAL "editor-goal" with fake := true }
    (by intro x hx; cases hx) rfl (by decide)).1 rfl

/-! ### C2: the level 10 reveal chain -/

theorem mech10_oneshot (q : PlayerState) (ents : List Entity)
    (h : entVisible ents "fake-goal" = false) : mech10 q ents = (ents, []) := by
  unfold mech10
  unfold entVisible at h
  rcases hf : ents.find? (fun e => decide (e.id = "fake-goal")) with _ | fg
  · rw [hf]
  · rw [hf] at h ⊢
    simp only at h
    simp [h]

theorem mech10_level10_fires (p : PlayerState)
    (hov : checkCollision (playerRect p) ⟨720, 320, 40, 80⟩ = true) :
    mech10 p level10.entities = (revealedEnts, [Effect.particles 720 320]) := by
  have hfind : level10.entities.find? (fun e => decide (e.id = "fake-goal")) = some fg0 := by
    decide
  have hrect : rectOf fg0 = ⟨720, 320, 40, 80⟩ := by decide
  simp only [mech10, hfind]
  rw [hrect]
  rw [if_pos (show fg0.visible = true from rfl)]
  rw [if_pos hov]
  decide

theorem genericTrapStep_id (p : PlayerState) (e : Entity) (h : e.trap = false) :
    genericTrapStep p e = e := by
  simp [genericTrapStep, h]

theorem proximityStep_id (p : PlayerState) (e : Entity)
    (h : e.fallingProximity = false) : proximityStep p e = e := by
  simp [proximityStep, h]

theorem map_fixes (f : Entity → Entity) :
    ∀ l : List Entity, (∀ e ∈ l, f e = e) → l.map f = l := by
  intro l h
  induction l with
  | nil => rfl
  | cons e rest ih =>
      rw [List.map_cons, h e (List.mem_cons_self e rest),
          ih fun x hx => h x (List.mem_cons_of_mem _ hx)]

theorem mech10_no_fire (p : PlayerState) (ents : List Entity) (fg : Entity)
    (hfind : ents.find? (fun e => decide (e.id = "fake-goal")) = some fg)
    (hov : checkCollision (playerRect p) (rectOf fg) = false) :
    mech10 p ents = (ents, []) := by
  unfold mech10
  rw [hfind]
  cases hv : fg.visible
  · simp [hv]
  · simp [hv, hov]

theorem updateLevelMechanics10_inert (fc : Nat) (rand : ℚ) (p : PlayerState)
    (ents : List Entity) (fg : Entity)
    (hgen : ∀ e ∈ ents, e.trap = false ∧ e.fallingProximity = false)
    (hfind : ents.find? (fun e => decide (e.id = "fake-goal")) = some fg)
    (hov : checkCollision (playerRect p) (rectOf fg) = false) :
    updateLevelMechanics 10 fc rand p ents = (ents, []) := by
  have h1 : ents.map (genericTrapStep p) = ents :=
    map_fixes _ ents fun e he => genericTrapStep_id p e (hgen e he).1
  have h2 : ents.map (proximityStep p) = ents :=
    map_fixes _ ents fun e he => proximityStep_id p e (hgen e he).2
  simp only [updateLevelMechanics, h1, h2]
  norm_num
  exact mech10_no_fire p ents fg hfind hov

theorem update_entities (level : LevelData) (keys : Keys) (rand : ℚ)
    (s : GameState) :
    (update level keys rand s).state.entities = (mechRes level keys rand s).1 := by
  simp only [update]
  split
  · rfl
  · split <;> rfl

theorem run10_inert (keys : Nat → Keys) (rand : Nat → ℚ) :
    ∀ n, (∀ i, i < n →
        checkCollision (playerRect (physPlayer (keys i) (run10 keys rand i).player))
          ⟨720, 320, 40, 80⟩ = false) →
      (run10 keys rand n).entities = level10.entities := by
  intro n
  induction n with
  | zero => intro _; rfl
  | succ n ih =>
      intro h
      have hn := ih fun i hi => h i (Nat.lt_succ_of_lt hi)
      show (update level10 (keys n) (rand n) (run10 keys rand n)).state.entities = _
      rw [update_entities]
      unfold mechRes
      rw [hn]
      have hov : checkCollision
          (playerRect (physPlayer (keys n) (run10 keys rand n).player))
          (rectOf fg0) = false := by
        rw [show rectOf fg0 = (⟨720, 320, 40, 80⟩ : Rect) from by decide]
        exact h n (Nat.lt_succ_self n)
      have := updateLevelMechanics10_inert (run10 keys rand n).frameCount (rand n)
        (physPlayer (keys n) (run10 keys rand n).player) level10.entities fg0
        (by decide) (by decide) hov
      rw [show level10.id = (10 : Int) from rfl, this]

/-- C2 (corrected): when the player overlaps the still-visible decoy, in
that same mechanic step the decoy becomes invisible and non-collidable, the
real-goal entity becomes both visible and collidable, and the stairs s1–s4
become visible; in the load state and in every frame of every level 10 run
in which the decoy has not yet been overlapped, the entity list is still
the authored one, so the real goal is neither visible nor collidable and
the stairs are invisible in every earlier frame; and the transition is
one-shot (once the decoy is invisible the mechanic never fires again).
However, the stair entities are collidable from level load — invisible but
solid in every earlier frame — so only their visibility changes at the
reveal (c2_counterexample). -/
theorem c2_reveal_chain (p : PlayerState)
    (hov : checkCollision (playerRect p) ⟨720, 320, 40, 80⟩ = true) :
    (entVisible (reveal10 p) "fake-goal" = false ∧
     entCollidable (reveal10 p) "fake-goal" = false ∧
     entVisible (reveal10 p) "real-goal" = true ∧
     entCollidable (reveal10 p) "real-goal" = true ∧
     entVisible (reveal10 p) "s1" = true ∧ entVisible (reveal10 p) "s2" = true ∧
     entVisible (reveal10 p) "s3" = true ∧ entVisible (reveal10 p) "s4" = true) ∧
    (entVisible level10.entities "real-goal" = false ∧
     entCollidable level10.entities "real-goal" = false ∧
     entVisible level10.entities "s1" = false ∧ entVisible level10.entities "s2" = false ∧
     entVisible level10.entities "s3" = false ∧ entVisible level10.entities "s4" = false ∧
     entCollidable level10.entities "s1" = true ∧ entCollidable level10.entities "s2" = true ∧
     entCollidable level10.entities "s3" = true ∧ entCollidable level10.entities "s4" = true) ∧
    (∀ (keys : Nat → Keys) (rand : Nat → ℚ) (n : Nat),
      (∀ i, i < n →
        checkCollision (playerRect (physPlayer (keys i) (run10 keys rand i).player))
          ⟨720, 320, 40, 80⟩ = false) →
      entVisible (run10 keys rand n).entities "real-goal" = false ∧
      entCollidable (run10 keys rand n).entities "real-goal" = false ∧
      entVisible (run10 keys rand n).entities "s1" = false ∧
      entVisible (run10 keys rand n).entities "s2" = false ∧
      entVisible (run10 keys rand n).entities "s3" = false ∧
      entVisible (run10 keys rand n).entities "s4" = false ∧
      entVisible (run10 keys rand n).entities "fake-goal" = true) ∧
    (∀ (q : PlayerState) (ents : List Entity), entVisible ents "fake-goal" = false →
      mech10 q ents = (ents, [])) := by
  refine ⟨?_, by decide, ?_, fun q ents h => mech10_oneshot q ents h⟩
  · have h := mech10_level10_fires p hov
    unfold reveal10
    rw [h]
    decide
  · intro keys rand n h
    rw [run10_inert keys rand n h]
    exact (by decide)

/-- C2 counterexample: one frame after level 10 loads, the decoy is still
present (visible) and yet the stair entities s1–s4 are already collidable
(while invisible) — they do not first become collidable in the frame the
decoy is removed. -/
theorem c2_counterexample :
    entVisible (update level10 noKeys 0 (startState level10)).state.entities "fake-goal"
      = true ∧
    entCollidable (update level10 noKeys 0 (startState level10)).state.entities "s1"
      = true ∧
    entCollidable (update level10 noKeys 0 (startState level10)).state.entities "s2"
      = true ∧
    entCollidable (update level10 noKeys 0 (startState level10)).state.entities "s3"
      = true ∧
    entCollidable (update level10 noKeys 0 (startState level10)).state.entities "s4"
      = true ∧
    entVisible (update level10 noKeys 0 (startState level10)).state.entities "s1"
      = false := by decide

/-- Witness for C2: the reveal fired by a concrete overlapping player
removes the decoy. -/
theorem c2_reveal_chain_witness :
    entVisible (reveal10 wDecoyPlayer) "fake-goal" = false :=
  (c2_reveal_chain wDecoyPlayer (by decide)).1.1

/-! ### C4: crumbling traps -/

theorem trapRunG_pre (traj : Nat → PlayerState) (e0 : Entity) (k : Nat)
    (htr : e0.triggered = false)
    (hbefore : ∀ i, i < k → trapContact (traj i) e0 = false) :
    ∀ n, n ≤ k → trapRunG traj e0 n = e0 := by
  intro n
  induction n with
  | zero => intro _; rfl
  | succ n ih =>
      intro hn
      have hnk : n ≤ k := Nat.le_of_succ_le hn
      have hlt : n < k := Nat.lt_of_succ_le hn
      rw [trapRunG, ih hnk]
      cases htp : e0.trap
      · simp [genericTrapStep, htp]
      · simp [genericTrapStep, htp, hbefore n hlt, htr]

theorem trapRunG_post (traj : Nat → PlayerState) (e0 : Entity) (k : Nat)
    (htrap : e0.trap = true) (hv : e0.visible = true) (hcol : e0.collidable = true)
    (htr : e0.triggered = false)
    (hbefore : ∀ i, i < k → trapContact (traj i) e0 = false)
    (hk : trapContact (traj k) e0 = true) :
    ∀ j, trapRunG traj e0 (k + 1 + j) =
      if j + 1 ≤ 20 then { e0 with triggered := true, timer := j + 1 }
      else { e0 with triggered := true, timer := j + 1,
                     visible := false, collidable := false } := by
  intro j
  induction j with
  | zero =>
      show trapRunG traj e0 (k + 1) = _
      rw [trapRunG, trapRunG_pre traj e0 k htr hbefore k (le_refl k)]
      simp [genericTrapStep, htrap, hv, hcol, hk, htr]
  | succ j ih =>
      show trapRunG traj e0 (k + 1 + j + 1) = _
      rw [trapRunG, ih]
      by_cases hA : j + 1 + 1 ≤ 20
      · have h1 : j + 1 ≤ 20 := by omega
        have h2 : ¬ j + 1 + 1 > 20 := by omega
        rw [if_pos h1, if_pos hA]
        simp [genericTrapStep, htrap, h2]
      · by_cases hB : j + 1 ≤ 20
        · have h2 : j + 1 + 1 > 20 := by omega
          rw [if_pos hB, if_neg hA]
          simp [genericTrapStep, htrap, h2]
        · have h2 : j + 1 + 1 > 20 := by omega
          rw [if_neg hB, if_neg hA]
          simp [genericTrapStep, htrap, h2]

theorem trapRun4_pre (traj : Nat → PlayerState) (e0 : Entity) (k : Nat)
    (htr : e0.triggered = false)
    (hbefore : ∀ i, i < k → trapContact (traj i) e0 = false) :
    ∀ n, n ≤ k → trapRun4 traj e0 n = e0 := by
  intro n
  induction n with
  | zero => intro _; rfl
  | succ n ih =>
      intro hn
      have hnk : n ≤ k := Nat.le_of_succ_le hn
      have hlt : n < k := Nat.lt_of_succ_le hn
      rw [trapRun4, ih hnk]
      simp [level4TrapStep, hbefore n hlt, htr]

theorem trapRun4_post (traj : Nat → PlayerState) (e0 : Entity) (k : Nat)
    (htr : e0.triggered = false)
    (hbefore : ∀ i, i < k → trapContact (traj i) e0 = false)
    (hk : trapContact (traj k) e0 = true) :
    ∀ j, trapRun4 traj e0 (k + 1 + j) =
      if j + 1 ≤ 20 then { e0 with triggered := true, timer := j + 1 }
      else { e0 with triggered := true, timer := j + 1,
                     visible := false, collidable := false } := by
  intro j
  induction j with
  | zero =>
      show trapRun4 traj e0 (k + 1) = _
      rw [trapRun4, trapRun4_pre traj e0 k htr hbefore k (le_refl k)]
      simp [level4TrapStep, hk, htr]
  | succ j ih =>
      show trapRun4 traj e0 (k + 1 + j + 1) = _
      rw [trapRun4, ih]
      by_cases hA : j + 1 + 1 ≤ 20
      · have h1 : j + 1 ≤ 20 := by omega
        have h2 : ¬ j + 1 + 1 > 20 := by omega
        rw [if_pos h1, if_pos hA]
        simp [level4TrapStep, h2]
      · by_cases hB : j + 1 ≤ 20
        · have h2 : j + 1 + 1 > 20 := by omega
          rw [if_pos hB, if_neg hA]
          simp [level4TrapStep, h2]
        · have h2 : j + 1 + 1 > 20 := by omega
          rw [if_neg hB, if_neg hA]
          simp [level4TrapStep, h2]

theorem trapRunG_visible_iff (traj : Nat → PlayerState) (e0 : Entity) (k : Nat)
    (htrap : e0.trap = true) (hv : e0.visible = true) (hcol : e0.collidable = true)
    (htr : e0.triggered = false)
    (hbefore : ∀ i, i < k → trapContact (traj i) e0 = false)
    (hk : trapContact (traj k) e0 = true) :
    ∀ n, ((trapRunG traj e0 n).visible = true ↔ n ≤ k + 20) ∧
      ((trapRunG traj e0 n).collidable = true ↔ n ≤ k + 20) := by
  intro n
  by_cases hn : n ≤ k
  · rw [trapRunG_pre traj e0 k htr hbefore n hn]
    simp [hv, hcol]
    omega
  · obtain ⟨j, rfl⟩ : ∃ j, n = k + 1 + j := ⟨n - (k + 1), by omega⟩
    rw [trapRunG_post traj e0 k htrap hv hcol htr hbefore hk j]
    by_cases h20 : j + 1 ≤ 20
    · rw [if_pos h20]
      simp [hv, hcol]
      omega
    · rw [if_neg h20]
      simp
      omega

theorem trapRun4_visible_iff (traj : Nat → PlayerState) (e0 : Entity) (k : Nat)
    (hv : e0.visible = true) (hcol : e0.collidable = true)
    (htr : e0.triggered = false)
    (hbefore : ∀ i, i < k → trapContact (traj i) e0 = false)
    (hk : trapContact (traj k) e0 = true) :
    ∀ n, ((trapRun4 traj e0 n).visible = true ↔ n ≤ k + 20) ∧
      ((trapRun4 traj e0 n).collidable = true ↔ n ≤ k + 20) := by
  intro n
  by_cases hn : n ≤ k
  · rw [trapRun4_pre traj e0 k htr hbefore n hn]
    simp [hv, hcol]
    omega
  · obtain ⟨j, rfl⟩ : ∃ j, n = k + 1 + j := ⟨n - (k + 1), by omega⟩
    rw [trapRun4_post traj e0 k htr hbefore hk j]
    by_cases h20 : j + 1 ≤ 20
    · rw [if_pos h20]
      simp [hv, hcol]
      omega
    · rw [if_neg h20]
      simp
      omega

/-- C4 (corrected): a crumbling-trap entity (property-flagged, and likewise
level 4's trap-plat) crumbles exactly once per level load: starting fresh
(visible, collidable, untriggered), with the first qualifying contact —
player grounded and overlapping the enlarged trigger region — at frame k,
the entity is visible at the end of frame n exactly when n ≤ k + 20, and
likewise collidable exactly when n ≤ k + 20 — so at the end of frame
k + 20 it turns both invisible and non-collidable and is never solid or
visible again. The countdown is started by the first contact frame alone
and advances every following frame whether or not contact continues, so
the original requirement of 20 consecutive contact frames is refuted by
c4_counterexample. -/
theorem c4_trap_crumble (traj : Nat → PlayerState) (e0 : Entity) (k : Nat)
    (hv : e0.visible = true) (hcol : e0.collidable = true) (htr : e0.triggered = false)
    (hbefore : ∀ i, i < k → trapContact (traj i) e0 = false)
    (hk : trapContact (traj k) e0 = true) :
    (e0.trap = true →
      ∀ n, ((trapRunG traj e0 n).visible = true ↔ n ≤ k + 20) ∧
        ((trapRunG traj e0 n).collidable = true ↔ n ≤ k + 20)) ∧
    (∀ n, ((trapRun4 traj e0 n).visible = true ↔ n ≤ k + 20) ∧
      ((trapRun4 traj e0 n).collidable = true ↔ n ≤ k + 20)) :=
  ⟨fun htrap => trapRunG_visible_iff traj e0 k htrap hv hcol htr hbefore hk,
   trapRun4_visible_iff traj e0 k hv hcol htr hbefore hk⟩

set_option maxRecDepth 8000 in
/-- C4 counterexample: with qualifying contact on exactly one frame (frame 0
only), the level 4 trap platform still crumbles: after frame 20 it is
invisible and non-collidable, although only 1 — not at least 20
consecutive — frames of qualifying contact ever happened. -/
theorem c4_counterexample :
    (trapRun4 oneTouchTraj trapPlat 21).visible = false ∧
    (trapRun4 oneTouchTraj trapPlat 21).collidable = false ∧
    ((List.range 21).filter fun i => trapContact (oneTouchTraj i) trapPlat).length
      = 1 := by decide

/-- Witness for C4: the fresh trap platform under permanent contact is still
visible at the end of frame 0. -/
theorem c4_trap_crumble_witness :
    (trapRun4 alwaysTouchTraj trapPlat 0).visible = true ∧
    (trapRun4 alwaysTouchTraj trapPlat 0).collidable = true :=
  ⟨((c4_trap_crumble alwaysTouchTraj trapPlat 0 rfl rfl rfl
      (fun i hi => absurd hi (Nat.not_lt_zero i)) (by decide)).2 0).1.mpr (by omega),
   ((c4_trap_crumble alwaysTouchTraj trapPlat 0 rfl rfl rfl
      (fun i hi => absurd hi (Nat.not_lt_zero i)) (by decide)).2 0).2.mpr (by omega)⟩

theorem pillarStep_snap (q : ℚ) (e : Entity)
    (htrig : e.triggered = true)
    (hge : e.y + (e.vy + 0.8) + e.h ≥ 12 * TILE_SIZE) :
    pillarStep q e = { e with y := 12 * TILE_SIZE - e.h, vy := 0 } := by
  simp only [pillarStep, htrig, Bool.not_true, Bool.false_and, Bool.false_eq_true,
    if_false, if_true]
  rw [if_pos hge]

theorem pillarStep_fall (q : ℚ) (e : Entity)
    (htrig : e.triggered = true)
    (hlt : ¬ e.y + (e.vy + 0.8) + e.h ≥ 12 * TILE_SIZE) :
    pillarStep q e = { e with y := e.y + (e.vy + 0.8), vy := e.vy + 0.8 } := by
  simp only [pillarStep, htrig, Bool.not_true, Bool.false_and, Bool.false_eq_true,
    if_false, if_true]
  rw [if_neg hlt]

theorem pillarStep_fire (q : ℚ) (e : Entity)
    (htrig : e.triggered = false) (hq : q > 5 * TILE_SIZE) :
    pillarStep q e =
      if e.y + (e.vy + 0.8) + e.h ≥ 12 * TILE_SIZE then
        { e with triggered := true, y := 12 * TILE_SIZE - e.h, vy := 0 }
      else { e with triggered := true, y := e.y + (e.vy + 0.8), vy := e.vy + 0.8 } := by
  simp only [pillarStep, htrig, Bool.not_false, Bool.true_and, decide_eq_true hq, if_true]

theorem pillarStep_inert (q : ℚ) (e : Entity)
    (htrig : e.triggered = false) (hq : ¬ q > 5 * TILE_SIZE) :
    pillarStep q e = e := by
  simp only [pillarStep, htrig, Bool.not_false, Bool.true_and, decide_eq_false hq,
    Bool.false_eq_true, if_false]

theorem pillarStep_h (q : ℚ) (e : Entity) : (pillarStep q e).h = e.h := by
  cases htrig : e.triggered
  · by_cases hq : q > 5 * TILE_SIZE
    · rw [pillarStep_fire q e htrig hq]
      split <;> rfl
    · rw [pillarStep_inert q e htrig hq]
  · by_cases hge : e.y + (e.vy + 0.8) + e.h ≥ 12 * TILE_SIZE
    · rw [pillarStep_snap q e htrig hge]
    · rw [pillarStep_fall q e htrig hge]

theorem pillarStep_vy_nonneg (q : ℚ) (e : Entity) (h : 0 ≤ e.vy) :
    0 ≤ (pillarStep q e).vy := by
  cases htrig : e.triggered
  · by_cases hq : q > 5 * TILE_SIZE
    · rw [pillarStep_fire q e htrig hq]
      split
      · exact le_refl 0
      · show (0:ℚ) ≤ e.vy + 0.8
        linarith
    · rw [pillarStep_inert q e htrig hq]
      exact h
  · by_cases hge : e.y + (e.vy + 0.8) + e.h ≥ 12 * TILE_SIZE
    · rw [pillarStep_snap q e htrig hge]
    · rw [pillarStep_fall q e htrig hge]
      show (0:ℚ) ≤ e.vy + 0.8
      linarith

theorem pillarStep_floor (q : ℚ) (e : Entity) (h : e.y + e.h ≤ 12 * TILE_SIZE) :
    (pillarStep q e).y + (pillarStep q e).h ≤ 12 * TILE_SIZE := by
  cases htrig : e.triggered
  · by_cases hq : q > 5 * TILE_SIZE
    · rw [pillarStep_fire q e htrig hq]
      split
      · next hge =>
          show 12 * TILE_SIZE - e.h + e.h ≤ 12 * TILE_SIZE
          linarith
      · next hge =>
          show e.y + (e.vy + 0.8) + e.h ≤ 12 * TILE_SIZE
          linarith
    · rw [pillarStep_inert q e htrig hq]
      exact h
  · by_cases hge : e.y + (e.vy + 0.8) + e.h ≥ 12 * TILE_SIZE
    · rw [pillarStep_snap q e htrig hge]
      show 12 * TILE_SIZE - e.h + e.h ≤ 12 * TILE_SIZE
      linarith
    · rw [pillarStep_fall q e htrig hge]
      show e.y + (e.vy + 0.8) + e.h ≤ 12 * TILE_SIZE
      linarith

theorem pillarStep_accum (q : ℚ) (e : Entity)
    (htr : (pillarStep q e).triggered = true)
    (hfl : (pillarStep q e).y + (pillarStep q e).h < 12 * TILE_SIZE) :
    (pillarStep q e).vy = e.vy + 0.8 := by
  cases htrig : e.triggered
  · by_cases hq : q > 5 * TILE_SIZE
    · rw [pillarStep_fire q e htrig hq] at hfl ⊢
      rcases lt_or_ge (e.y + (e.vy + 0.8) + e.h) (12 * TILE_SIZE) with hc | hc
      · rw [if_neg (not_le.mpr hc)] at hfl ⊢
      · rw [if_pos hc] at hfl
        exfalso
        have : 12 * TILE_SIZE - e.h + e.h < 12 * TILE_SIZE := hfl
        linarith
    · rw [pillarStep_inert q e htrig hq] at htr
      rw [htrig] at htr
      exact absurd htr (by simp)
  · by_cases hge : e.y + (e.vy + 0.8) + e.h ≥ 12 * TILE_SIZE
    · rw [pillarStep_snap q e htrig hge] at hfl
      exfalso
      have : 12 * TILE_SIZE - e.h + e.h < 12 * TILE_SIZE := hfl
      linarith
    · rw [pillarStep_fall q e htrig hge]

theorem pillarStep_at_floor (q : ℚ) (e : Entity)
    (htrig : e.triggered = true) (hvy : 0 ≤ e.vy)
    (hy : e.y + e.h = 12 * TILE_SIZE) :
    (pillarStep q e).y + (pillarStep q e).h = 12 * TILE_SIZE ∧
    (pillarStep q e).vy = 0 := by
  have hge : e.y + (e.vy + 0.8) + e.h ≥ 12 * TILE_SIZE := by linarith
  rw [pillarStep_snap q e htrig hge]
  constructor
  · show 12 * TILE_SIZE - e.h + e.h = 12 * TILE_SIZE
    ring
  · rfl

theorem pillarStep_untriggered (q : ℚ) (e : Entity)
    (h : (pillarStep q e).triggered = false) : pillarStep q e = e := by
  cases htrig : e.triggered
  · by_cases hq : q > 5 * TILE_SIZE
    · exfalso
      rw [pillarStep_fire q e htrig hq] at h
      revert h
      split <;> simp
    · exact pillarStep_inert q e htrig hq
  · exfalso
    by_cases hge : e.y + (e.vy + 0.8) + e.h ≥ 12 * TILE_SIZE
    · rw [pillarStep_snap q e htrig hge] at h
      simp [htrig] at h
    · rw [pillarStep_fall q e htrig hge] at h
      simp [htrig] at h

theorem pillarRun_vy_nonneg (px : Nat → ℚ) : ∀ n, 0 ≤ (pillarRun px n).vy := by
  intro n
  induction n with
  | zero => exact le_refl 0
  | succ n ih => exact pillarStep_vy_nonneg (px n) _ ih

theorem pillarRun_untriggered_eq (px : Nat → ℚ) :
    ∀ n, (pillarRun px n).triggered = false → pillarRun px n = pillar0 := by
  intro n
  induction n with
  | zero => intro _; rfl
  | succ n ih =>
      intro h
      rw [pillarRun] at h ⊢
      have hstep := pillarStep_untriggered (px n) _ h
      rw [hstep] at h ⊢
      exact ih h

/-- C8: the level 7 falling pillar, along any player x trajectory: it never
moves before the trigger (while the player has not crossed x = 5 tiles, the
entity is exactly as authored); at every frame boundary its lower edge
never lies below the floor line y = 12 tiles; on every frame that ends
triggered and strictly above the floor line, the downward velocity has
grown by exactly the 0.8 gravity increment (so it is strictly increasing
until the floor is first reached); and once the lower edge reaches the
floor line it stays there forever with zero velocity. -/
theorem c8_pillar (px : Nat → ℚ) :
    (∀ n, (∀ i, i < n → ¬ px i > 5 * TILE_SIZE) → pillarRun px n = pillar0) ∧
    (∀ n, (pillarRun px n).y + (pillarRun px n).h ≤ 12 * TILE_SIZE) ∧
    (∀ n, (pillarRun px (n + 1)).triggered = true →
      (pillarRun px (n + 1)).y + (pillarRun px (n + 1)).h < 12 * TILE_SIZE →
      (pillarRun px (n + 1)).vy = (pillarRun px n).vy + 0.8) ∧
    (∀ n, (pillarRun px n).y + (pillarRun px n).h = 12 * TILE_SIZE →
      (pillarRun px (n + 1)).y + (pillarRun px (n + 1)).h = 12 * TILE_SIZE ∧
      (pillarRun px (n + 1)).vy = 0) := by
  refine ⟨?_, ?_, ?_, ?_⟩
  · intro n
    induction n with
    | zero => intro _; rfl
    | succ n ih =>
        intro h
        have hn := ih fun i hi => h i (Nat.lt_succ_of_lt hi)
        rw [pillarRun, hn]
        exact pillarStep_inert (px n) pillar0 rfl (h n (Nat.lt_succ_self n))
  · intro n
    induction n with
    | zero => exact (by decide : pillar0.y + pillar0.h ≤ 12 * TILE_SIZE)
    | succ n ih => exact pillarStep_floor (px n) _ ih
  · intro n htr hfl
    exact pillarStep_accum (px n) _ htr hfl
  · intro n hy
    have htrig : (pillarRun px n).triggered = true := by
      cases htrc : (pillarRun px n).triggered
      · exfalso
        have heq := pillarRun_untriggered_eq px n htrc
        rw [heq] at hy
        revert hy
        decide
      · rfl
    exact pillarStep_at_floor (px n) _ htrig (pillarRun_vy_nonneg px n) hy

/-- Witness for C8: with the player never past the trigger, the pillar is
untouched after one frame; and the floor invariant holds at frame 0. -/
theorem c8_pillar_witness :
    pillarRun (fun _ => 0) 1 = pillar0 ∧
    (pillarRun (fun _ => 250) 0).y + (pillarRun (fun _ => 250) 0).h ≤ 12 * TILE_SIZE := by
  constructor
  · exact (c8_pillar (fun _ => (0 : ℚ))).1 1 (by intro i hi; decide)
  · exact (c8_pillar (fun _ => (250 : ℚ))).2.1 0

end LD
